import Mathlib

/-!
Verification of the Skedaddle rota application against its specification.

The definitions below are a shallow embedding of the Python/Django source:
  * dates are day numbers (`Nat`), ordered as calendar dates are;
  * database tables are lists of rows; query-set filters become `List.filter`,
    `exists()` becomes `List.any`, `.first()` becomes `List.find?`;
  * fallible operations (raised exceptions) return `Option`/`Except`.
Each definition names the source construct it embeds.
-/

namespace Skedaddle

/-- Staff role, from `StaffMember.ROLE_CHOICES` in rota/models.py. -/
inductive Role where
  | OPERATIVE
  | SUPERVISOR
deriving DecidableEq, Repr

/-- Embeds rota/models.py `StaffMember` (the fields the claims need:
primary key, `role`, `is_active`). -/
structure StaffMember where
  id : Nat
  role : Role
  is_active : Bool
deriving DecidableEq, Repr

/-- APS validation status, from `OperatorValidation.Status` in validation/models.py. -/
inductive VStatus where
  | VALID
  | IN_TRAINING
  | RESTRICTED
  | SUSPENDED
deriving DecidableEq, Repr

/-- Left/Right, from `IsolatorSection.SectionType` in validation/models.py.
(`section` is a Lean keyword, so the field holding this value is named `side`.) -/
inductive SectionSide where
  | L
  | R
deriving DecidableEq, Repr

/-- Embeds validation/models.py `IsolatorSection`: primary key, the isolator it
belongs to, its side (the model's `section` field) and `is_active`. -/
structure IsolatorSection where
  id : Nat
  isolatorId : Nat
  side : SectionSide
  is_active : Bool
deriving DecidableEq, Repr

/-- Embeds validation/models.py `OperatorValidation`: the operator and section
foreign keys, `status`, and the `valid_from`/`expires_on` window
(`expires_on` is nullable). -/
structure OperatorValidation where
  operatorId : Nat
  sectionId : Nat
  status : VStatus
  valid_from : Nat
  expires_on : Option Nat
deriving DecidableEq, Repr

/-- Embeds `OperatorValidation.clean`: raises (returns an error message) iff
`expires_on` is set and precedes `valid_from`.  A Python `date` is always
truthy, so `if self.expires_on and ...` tests only that the field is set. -/
def OperatorValidation.clean (v : OperatorValidation) : Option String :=
  if v.expires_on.any (fun e => decide (e < v.valid_from)) then
    some "Expiry date cannot be before valid_from."
  else
    none

/-- Embeds `OperatorValidation.is_effective_on` (validation/models.py):
status must be VALID, the date must not precede `valid_from`, and must not
exceed `expires_on` when that is set. -/
def OperatorValidation.is_effective_on (v : OperatorValidation) (d : Nat) : Bool :=
  if v.status ≠ VStatus.VALID then false
  else if d < v.valid_from then false
  else if v.expires_on.any (fun e => decide (e < d)) then false
  else true

/-- Embeds validation/forms.py `OperatorValidationForm.clean`: returns `true`
iff an error is added on `expires_on`.  When `valid_from` is absent from the
cleaned data the form substitutes today's date. -/
def operator_validation_form_clean (valid_from : Option Nat) (expires_on : Option Nat)
    (today : Nat) : Bool :=
  let vf := valid_from.getD today
  expires_on.any (fun e => decide (e < vf))

/-- Embeds validation/services.py `get_operator_validation`: the first stored
row matching the operator and section, if any. -/
def get_operator_validation (vdb : List OperatorValidation) (op : StaffMember)
    (sec : IsolatorSection) : Option OperatorValidation :=
  vdb.find? (fun v => v.operatorId == op.id && v.sectionId == sec.id)

/-- Embeds validation/services.py `ValidationResult`. -/
structure ValidationResult where
  ok : Bool
  reason : String
  validation : Option OperatorValidation := none
deriving Repr

/-- Embeds validation/services.py `check_operator_valid_for_section`, the core
per-operator eligibility check, in the source's order of early returns. -/
def check_operator_valid_for_section (vdb : List OperatorValidation)
    (op : StaffMember) (sec : IsolatorSection) (d : Nat) : ValidationResult :=
  if op.is_active = false then
    { ok := false, reason := "Staff member is inactive." }
  else if sec.is_active = false then
    { ok := false, reason := "Isolator section is inactive." }
  else
    match get_operator_validation vdb op sec with
    | none => { ok := false, reason := "No APS validation record found." }
    | some v =>
      if v.status ≠ VStatus.VALID then
        { ok := false, reason := "APS status is not valid.", validation := some v }
      else if d < v.valid_from then
        { ok := false, reason := "APS not yet effective.", validation := some v }
      else if v.expires_on.any (fun e => decide (e < d)) then
        { ok := false, reason := "APS expired.", validation := some v }
      else
        { ok := true, reason := "OK", validation := some v }

/-- Embeds validation/services.py `get_valid_operators_for_section`.  The two
successive queryset `.filter(...)` calls each span the multi-valued relation
`isolator_validations`, and in Django successive filters over a multi-valued
relation join it independently: the first filter requires SOME validation row
for the given section with status VALID and `valid_from <= on_date`, while the
second requires SOME validation row of the same staff member (for any section)
whose `expires_on` is null or `>= on_date`.  The two rows need not coincide,
and neither filter consults `isolator_section.is_active`. -/
def get_valid_operators_for_section (vdb : List OperatorValidation)
    (staffdb : List StaffMember) (sec : IsolatorSection) (d : Nat) : List StaffMember :=
  staffdb.filter (fun s =>
    s.is_active
    && vdb.any (fun v =>
         v.operatorId == s.id && v.sectionId == sec.id
         && v.status == VStatus.VALID && decide (v.valid_from ≤ d))
    && vdb.any (fun w =>
         w.operatorId == s.id
         && (w.expires_on.isNone || w.expires_on.any (fun e => decide (d ≤ e)))))

/-- The status-and-three-date condition of spec claim C4, as a proposition. -/
def effectiveCond (v : OperatorValidation) (d : Nat) : Prop :=
  v.status = VStatus.VALID ∧ v.valid_from ≤ d ∧
    (v.expires_on = none ∨ ∃ e, v.expires_on = some e ∧ d ≤ e)

lemma is_effective_on_iff (v : OperatorValidation) (d : Nat) :
    v.is_effective_on d = true ↔ effectiveCond v d := by
  unfold OperatorValidation.is_effective_on effectiveCond
  by_cases hs : v.status = VStatus.VALID
  · cases hexp : v.expires_on with
    | none =>
      by_cases hlt : d < v.valid_from <;> simp [hs, hlt, hexp] <;> omega
    | some e =>
      by_cases hlt : d < v.valid_from <;> by_cases he : e < d <;>
        simp [hs, hlt, he, hexp] <;> omega
  · simp [hs]

lemma check_ok_iff (vdb : List OperatorValidation) (op : StaffMember)
    (sec : IsolatorSection) (d : Nat) :
    (check_operator_valid_for_section vdb op sec d).ok = true ↔
      (op.is_active = true ∧ sec.is_active = true ∧
       ∃ v, get_operator_validation vdb op sec = some v ∧ effectiveCond v d) := by
  unfold check_operator_valid_for_section
  cases ha : op.is_active with
  | false => simp [ha]
  | true =>
    cases hb : sec.is_active with
    | false => simp [ha, hb]
    | true =>
      cases hv : get_operator_validation vdb op sec with
      | none => simp [hv]
      | some v =>
        simp only [hv, Bool.true_eq_false, if_false, true_and, Option.some.injEq]
        have hrhs : (∃ w, v = w ∧ effectiveCond w d) ↔ effectiveCond v d := by
          constructor
          · rintro ⟨w, rfl, h⟩; exact h
          · intro h; exact ⟨v, rfl, h⟩
        rw [hrhs]
        unfold effectiveCond
        by_cases hs : v.status = VStatus.VALID
        · cases hexp : v.expires_on with
          | none =>
            by_cases hlt : d < v.valid_from <;> simp [hs, hlt, hexp] <;> omega
          | some e =>
            by_cases hlt : d < v.valid_from <;> by_cases he : e < d <;>
              simp [hs, hlt, he, hexp] <;> omega
        · simp [hs]

/-- C4: `is_effective_on` holds exactly on VALID records whose window contains
the date, and `check_operator_valid_for_section(...).ok` holds exactly when the
staff member and section are active and a stored validation record for the pair
satisfies the same status-and-three-date condition. -/
theorem C4_eligibility_pure_function :
    (∀ (v : OperatorValidation) (d : Nat),
       v.is_effective_on d = true ↔
         (v.status = VStatus.VALID ∧ v.valid_from ≤ d ∧
          (v.expires_on = none ∨ ∃ e, v.expires_on = some e ∧ d ≤ e))) ∧
    (∀ (vdb : List OperatorValidation) (op : StaffMember) (sec : IsolatorSection) (d : Nat),
       (check_operator_valid_for_section vdb op sec d).ok = true ↔
         (op.is_active = true ∧ sec.is_active = true ∧
          ∃ v, get_operator_validation vdb op sec = some v ∧
            v.status = VStatus.VALID ∧ v.valid_from ≤ d ∧
            (v.expires_on = none ∨ ∃ e, v.expires_on = some e ∧ d ≤ e))) := by
  constructor
  · intro v d
    exact is_effective_on_iff v d
  · intro vdb op sec d
    exact check_ok_iff vdb op sec d

/-- C8: the model `clean` rejects exactly when `expires_on` is set and precedes
`valid_from`, and the form `clean` adds an error on `expires_on` under exactly
the same condition (with `valid_from` supplied). -/
theorem C8_expiry_not_before_valid_from :
    (∀ v : OperatorValidation,
       OperatorValidation.clean v ≠ none ↔ ∃ e, v.expires_on = some e ∧ e < v.valid_from) ∧
    (∀ (vf : Nat) (eo : Option Nat) (today : Nat),
       operator_validation_form_clean (some vf) eo today = true ↔
         ∃ e, eo = some e ∧ e < vf) := by
  constructor
  · intro v
    unfold OperatorValidation.clean
    cases h : v.expires_on with
    | none => simp [h]
    | some e =>
      by_cases hlt : e < v.valid_from
      · simp [h, hlt]
      · simp [h, hlt]
  · intro vf eo today
    unfold operator_validation_form_clean
    cases eo with
    | none => simp
    | some e => simp

/-- C9 counterexample: for an INACTIVE isolator section, the per-operator check
fails (section inactive) while the bulk candidate query — which never consults
`isolator_section.is_active` — still returns the staff member.  So the two do
not agree for every section, date and staff member. -/
theorem C9_cex_inactive_section :
    (check_operator_valid_for_section [⟨7, 3, VStatus.VALID, 0, none⟩]
        ⟨7, Role.OPERATIVE, true⟩ ⟨3, 1, SectionSide.L, false⟩ 10).ok = false ∧
    (⟨7, Role.OPERATIVE, true⟩ : StaffMember) ∈
      get_valid_operators_for_section [⟨7, 3, VStatus.VALID, 0, none⟩]
        [⟨7, Role.OPERATIVE, true⟩] ⟨3, 1, SectionSide.L, false⟩ 10 := by
  decide

/-- C9 (amended): the bulk candidate query over-approximates the per-operator
check — every stored staff member that `check_operator_valid_for_section`
accepts is in the result of `get_valid_operators_for_section`; the converse
direction fails (see the inactive-section counterexample). -/
theorem C9_check_ok_implies_in_bulk (vdb : List OperatorValidation)
    (staffdb : List StaffMember) (sec : IsolatorSection) (d : Nat) (s : StaffMember)
    (hs : s ∈ staffdb)
    (hok : (check_operator_valid_for_section vdb s sec d).ok = true) :
    s ∈ get_valid_operators_for_section vdb staffdb sec d := by
  obtain ⟨ha, -, v, hfind, hcond⟩ := (check_ok_iff vdb s sec d).mp hok
  unfold get_operator_validation at hfind
  have hv_mem : v ∈ vdb := List.mem_of_find?_eq_some hfind
  have hv_pred := List.find?_some hfind
  simp only [Bool.and_eq_true, beq_iff_eq] at hv_pred
  obtain ⟨hstat, hfrom, hexp⟩ := hcond
  refine List.mem_filter.mpr ⟨hs, ?_⟩
  have h1 : vdb.any (fun w =>
      w.operatorId == s.id && w.sectionId == sec.id
      && w.status == VStatus.VALID && decide (w.valid_from ≤ d)) = true := by
    refine List.any_eq_true.mpr ⟨v, hv_mem, ?_⟩
    simp only [Bool.and_eq_true, beq_iff_eq, decide_eq_true_eq]
    exact ⟨⟨⟨hv_pred.1, hv_pred.2⟩, hstat⟩, hfrom⟩
  have h2 : vdb.any (fun w =>
      w.operatorId == s.id
      && (w.expires_on.isNone || w.expires_on.any (fun e => decide (d ≤ e)))) = true := by
    refine List.any_eq_true.mpr ⟨v, hv_mem, ?_⟩
    simp only [Bool.and_eq_true, beq_iff_eq]
    refine ⟨hv_pred.1, ?_⟩
    rcases hexp with hnone | ⟨e, he, hde⟩
    · simp [hnone]
    · simp [he, hde]
  simp only [Bool.and_eq_true]
  exact ⟨⟨ha, h1⟩, h2⟩

/-- C9 witness: a concrete active staff member with a currently valid record
for an active section passes the check and is returned by the bulk query. -/
theorem C9_witness :
    (⟨7, Role.OPERATIVE, true⟩ : StaffMember) ∈
      get_valid_operators_for_section [⟨7, 3, VStatus.VALID, 0, none⟩]
        [⟨7, Role.OPERATIVE, true⟩] ⟨3, 1, SectionSide.L, true⟩ 10 :=
  C9_check_ok_implies_in_bulk _ _ _ _ _ (by decide) (by decide)

/-- Rota day status, from `RotaDay.STATUS_CHOICES` in rota/models.py. -/
inductive RStatus where
  | DRAFT
  | PUBLISHED
deriving DecidableEq, Repr

/-- Embeds rota/models.py `RotaDay`: the calendar date, publish status,
publish metadata and version counter (default 0, i.e. never published). -/
structure RotaDay where
  date : Nat
  status : RStatus
  published_at : Option Nat
  published_by : Option Nat
  publish_version : Nat
deriving DecidableEq, Repr

/-- Embeds `RotaDay.mark_published` (rota/models.py): a first publish sets the
status and resets the version to 1, a republish increments the version, and
both stamp `published_at` (the current time, passed in as `now`) and
`published_by`. -/
def RotaDay.mark_published (r : RotaDay) (user : Nat) (now : Nat) : RotaDay :=
  let r1 :=
    if r.status ≠ RStatus.PUBLISHED then
      { r with status := RStatus.PUBLISHED, publish_version := 1 }
    else
      { r with publish_version := r.publish_version + 1 }
  { r1 with published_at := some now, published_by := some user }

/-- AM/PM shift block, from `Assignment.ShiftBlock` in rota/models.py. -/
inductive Block where
  | AM
  | PM
deriving DecidableEq, Repr

/-- Location type, from `Assignment.LOCATION_TYPES` in rota/models.py. -/
inductive LocType where
  | ROOM
  | ISOLATOR
deriving DecidableEq, Repr

/-- Embeds rota/models.py `Assignment`: primary key, the `rotaday`, `staff`,
`clean_room`, nullable `isolator` and nullable `shift` foreign keys,
`location_type`, `shift_block`, `notes` and `is_room_supervisor`. -/
structure Assignment where
  id : Nat
  rotaday : Nat
  staffId : Nat
  cleanRoomId : Nat
  isolatorId : Option Nat
  shiftId : Option Nat
  locationType : LocType
  shiftBlock : Block
  notes : String := ""
  isRoomSupervisor : Bool
deriving DecidableEq, Repr

/-- The column triple of the unique constraint
`uniq_staff_per_rotaday_shiftblock` in `Assignment.Meta` (rota/models.py). -/
def Assignment.key (a : Assignment) : Nat × Nat × Block :=
  (a.rotaday, a.staffId, a.shiftBlock)

/-- No two stored assignments share (rotaday, staff, shift_block): the
no-double-booking invariant the unique constraint guarantees. -/
def noDoubleBooking (db : List Assignment) : Prop :=
  db.Pairwise (fun a b => a.key ≠ b.key)

/-- Embeds a database INSERT of one assignment row under the unique
constraint: the insert raises IntegrityError (`none`) iff a stored row already
carries the same (rotaday, staff, shift_block). -/
def createAssignment (db : List Assignment) (a : Assignment) :
    Option (List Assignment) :=
  if db.any (fun b => b.key == a.key) then none
  else some (db ++ [a])

/-- The isolator being edited, as the daily-rota view resolves it from
`isolator_id`: its primary key and its clean room. -/
structure IsolatorRef where
  id : Nat
  cleanRoomId : Nat
deriving DecidableEq, Repr

/-- Embeds the order-preserving de-duplication of `chosen_ops` by
(staff, block) in `daily_rota` (rota/views.py), driven by the `seen` set. -/
def dedupe_ops_aux (seen : List (Nat × Block)) :
    List (Nat × Block) → List (Nat × Block)
  | [] => []
  | p :: rest =>
    if p ∈ seen then dedupe_ops_aux seen rest
    else p :: dedupe_ops_aux (p :: seen) rest

/-- De-duplicated chosen operators, first occurrences kept. -/
def dedupe_ops (l : List (Nat × Block)) : List (Nat × Block) :=
  dedupe_ops_aux [] l

/-- Embeds the `selected_pairs` set in `daily_rota`: the chosen operators plus
the AM and PM room supervisors.  Only membership matters (a set in Python). -/
def selected_pairs (ops : List (Nat × Block)) (supAM supPM : List Nat) :
    List (Nat × Block) :=
  ops ++ supAM.map (fun sid => (sid, Block.AM))
      ++ supPM.map (fun sid => (sid, Block.PM))

/-- Embeds `allowed_qs` in `daily_rota`: ids of this day's assignments already
belonging to the edit context — operators on the edited isolator, or room
supervisors of its clean room. -/
def allowed_ids (db : List Assignment) (rd : Nat) (iso : IsolatorRef) : List Nat :=
  (db.filter (fun a =>
      a.rotaday == rd
      && ((a.isolatorId == some iso.id && a.locationType == LocType.ISOLATOR)
          || (a.cleanRoomId == iso.cleanRoomId && a.locationType == LocType.ROOM
              && a.isRoomSupervisor)))).map (fun a => a.id)

/-- Embeds the `conflicts` queryset in `daily_rota`: this day's assignments
matching some selected (staff, block) pair, excluding the allowed ids.
With no selected pairs the queryset stays `Assignment.objects.none()`. -/
def conflicts_in (db : List Assignment) (rd : Nat) (iso : IsolatorRef)
    (sel : List (Nat × Block)) : List Assignment :=
  db.filter (fun a =>
    a.rotaday == rd
    && sel.any (fun p => p.1 == a.staffId && p.2 == a.shiftBlock)
    && !((allowed_ids db rd iso).contains a.id))

/-- The row `daily_rota` builds for one chosen operator.  `shiftFor` stands
for `_shift_for_block` (shift-template lookup by name/time; the claims do not
depend on which template it returns), `fresh` is the new primary key. -/
def op_row (rd : Nat) (iso : IsolatorRef) (shiftFor : Block → Nat)
    (fresh : Nat) (sid : Nat) (b : Block) : Assignment :=
  { id := fresh, rotaday := rd, staffId := sid, cleanRoomId := iso.cleanRoomId,
    isolatorId := some iso.id, shiftId := some (shiftFor b),
    locationType := LocType.ISOLATOR, shiftBlock := b, isRoomSupervisor := false }

/-- The row `daily_rota` builds for one room supervisor. -/
def sup_row (rd : Nat) (iso : IsolatorRef) (shiftFor : Block → Nat)
    (fresh : Nat) (sid : Nat) (b : Block) : Assignment :=
  { id := fresh, rotaday := rd, staffId := sid, cleanRoomId := iso.cleanRoomId,
    isolatorId := none, shiftId := some (shiftFor b),
    locationType := LocType.ROOM, shiftBlock := b, isRoomSupervisor := true }

/-- The wipe step for the edited isolator's operator rows:
`Assignment.objects.filter(rotaday=.., isolator=.., location_type="ISOLATOR").delete()`. -/
def wipe_isolator_ops (db : List Assignment) (rd : Nat) (iso : IsolatorRef) :
    List Assignment :=
  db.filter (fun a =>
    !(a.rotaday == rd && a.isolatorId == some iso.id
      && a.locationType == LocType.ISOLATOR))

/-- The wipe step for the clean room's supervisor rows:
filter on rotaday, clean_room, `isolator__isnull=True`, ROOM, is_room_supervisor. -/
def wipe_room_sups (db : List Assignment) (rd : Nat) (iso : IsolatorRef) :
    List Assignment :=
  db.filter (fun a =>
    !(a.rotaday == rd && a.cleanRoomId == iso.cleanRoomId
      && a.isolatorId == none && a.locationType == LocType.ROOM
      && a.isRoomSupervisor))

/-- Failure modes of the save block in `daily_rota`.  An operator row that
collides on the unique key fails `full_clean()`'s uniqueness check (an
uncaught ValidationError); a supervisor row is written with
`objects.create(...)` and collides at the database, the IntegrityError the
handler catches. -/
inductive SaveErr where
  | validationErr
  | integrityErr
deriving DecidableEq, Repr

/-- Inserts the chosen-operator rows in order (`assn.full_clean(); assn.save()`);
aborts when a row collides on (rotaday, staff, shift_block). -/
def insert_ops (rd : Nat) (iso : IsolatorRef) (shiftFor : Block → Nat) :
    List Assignment → Nat → List (Nat × Block) → Option (List Assignment × Nat)
  | db, fresh, [] => some (db, fresh)
  | db, fresh, (sid, b) :: rest =>
    match createAssignment db (op_row rd iso shiftFor fresh sid b) with
    | none => none
    | some db' => insert_ops rd iso shiftFor db' (fresh + 1) rest

/-- Inserts the room-supervisor rows for one block
(`Assignment.objects.create(...)`); aborts on a unique-key collision. -/
def insert_sups (rd : Nat) (iso : IsolatorRef) (shiftFor : Block → Nat)
    (b : Block) : List Assignment → Nat → List Nat → Option (List Assignment × Nat)
  | db, fresh, [] => some (db, fresh)
  | db, fresh, sid :: rest =>
    match createAssignment db (sup_row rd iso shiftFor fresh sid b) with
    | none => none
    | some db' => insert_sups rd iso shiftFor b db' (fresh + 1) rest

/-- Embeds the `transaction.atomic()` block of `daily_rota`: wipe and recreate
the edited isolator's operator rows, then wipe and recreate the clean room's
supervisor rows (AM then PM). -/
def daily_rota_save (db : List Assignment) (rd : Nat) (iso : IsolatorRef)
    (opsD : List (Nat × Block)) (supAM4 supPM4 : List Nat)
    (shiftFor : Block → Nat) (freshId : Nat) : Except SaveErr (List Assignment) :=
  match insert_ops rd iso shiftFor (wipe_isolator_ops db rd iso) freshId opsD with
  | none => Except.error SaveErr.validationErr
  | some (db2, fresh2) =>
    match insert_sups rd iso shiftFor Block.AM (wipe_room_sups db2 rd iso) fresh2 supAM4 with
    | none => Except.error SaveErr.integrityErr
    | some (db3, fresh3) =>
      match insert_sups rd iso shiftFor Block.PM db3 fresh3 supPM4 with
      | none => Except.error SaveErr.integrityErr
      | some (db4, _) => Except.ok db4

/-- Outcome of the daily-rota POST handler.  The rejection constructors carry
the database as the handler leaves it: the conflict rejection redirects before
any write, and a failure inside `transaction.atomic()` rolls every write of
the block back. -/
inductive PostResult where
  | saved (db : List Assignment)
  | conflictRejected (db : List Assignment) (conflicts : List Assignment)
  | saveFailed (db : List Assignment) (e : SaveErr)
deriving DecidableEq, Repr

/-- Embeds the POST branch of `daily_rota` (rota/views.py): de-duplicate the
chosen operators, cap the supervisors at 4 per block, reject on a conflicting
out-of-context (staff, block) pair, otherwise run the transactional save. -/
def daily_rota_post (db : List Assignment) (rd : Nat) (iso : IsolatorRef)
    (ops : List (Nat × Block)) (supAM supPM : List Nat)
    (shiftFor : Block → Nat) (freshId : Nat) : PostResult :=
  if (conflicts_in db rd iso
        (selected_pairs (dedupe_ops ops) (supAM.take 4) (supPM.take 4))).isEmpty = false then
    PostResult.conflictRejected db
      (conflicts_in db rd iso
        (selected_pairs (dedupe_ops ops) (supAM.take 4) (supPM.take 4)))
  else
    match daily_rota_save db rd iso (dedupe_ops ops) (supAM.take 4) (supPM.take 4)
        shiftFor freshId with
    | Except.error e => PostResult.saveFailed db e
    | Except.ok db' => PostResult.saved db'

/-- C1: a first publish sets status PUBLISHED and version 1, a republish keeps
status PUBLISHED and increments the version by exactly 1, both stamp
`published_at` and `published_by`, and the version strictly increases across
successive publishes of the same day. -/
theorem C1_mark_published_versioning :
    (∀ (r : RotaDay) (u t : Nat), r.status ≠ RStatus.PUBLISHED →
       (r.mark_published u t).status = RStatus.PUBLISHED ∧
       (r.mark_published u t).publish_version = 1 ∧
       (r.mark_published u t).published_at = some t ∧
       (r.mark_published u t).published_by = some u) ∧
    (∀ (r : RotaDay) (u t : Nat), r.status = RStatus.PUBLISHED →
       (r.mark_published u t).status = RStatus.PUBLISHED ∧
       (r.mark_published u t).publish_version = r.publish_version + 1 ∧
       (r.mark_published u t).published_at = some t ∧
       (r.mark_published u t).published_by = some u) ∧
    (∀ (r : RotaDay) (u t u' t' : Nat),
       (r.mark_published u t).publish_version <
         ((r.mark_published u t).mark_published u' t').publish_version) := by
  refine ⟨?_, ?_, ?_⟩
  · intro r u t h
    simp [RotaDay.mark_published, h]
  · intro r u t h
    simp [RotaDay.mark_published, h]
  · intro r u t u' t'
    by_cases h : r.status = RStatus.PUBLISHED <;>
      simp [RotaDay.mark_published, h]

/-- C1 witness: publishing a fresh draft day yields version 1, and publishing
a day already at version 3 yields version 4. -/
theorem C1_mark_published_witness :
    ((RotaDay.mk 0 RStatus.DRAFT none none 0).mark_published 1 5).publish_version = 1 ∧
    ((RotaDay.mk 0 RStatus.PUBLISHED none none 3).mark_published 2 6).publish_version = 4 :=
  ⟨(C1_mark_published_versioning.1 (RotaDay.mk 0 RStatus.DRAFT none none 0) 1 5
      (by decide)).2.1,
   (C1_mark_published_versioning.2.1 (RotaDay.mk 0 RStatus.PUBLISHED none none 3) 2 6
      rfl).2.1⟩

lemma noDoubleBooking_filter (db : List Assignment) (p : Assignment → Bool)
    (h : noDoubleBooking db) : noDoubleBooking (db.filter p) :=
  List.Pairwise.sublist (List.filter_sublist db) h

lemma createAssignment_pres {db db' : List Assignment} {a : Assignment}
    (h : noDoubleBooking db) (hc : createAssignment db a = some db') :
    noDoubleBooking db' := by
  unfold createAssignment at hc
  split at hc
  · exact absurd hc (by simp)
  · rename_i hany
    have hdb : db' = db ++ [a] := (Option.some.inj hc).symm
    subst hdb
    rw [noDoubleBooking, List.pairwise_append]
    refine ⟨h, List.pairwise_singleton _ _, ?_⟩
    intro x hx y hy
    have hy' : y = a := by simpa using hy
    subst hy'
    intro hkey
    exact hany (List.any_eq_true.mpr ⟨x, hx, by simp [hkey]⟩)

lemma insert_ops_pres (rd : Nat) (iso : IsolatorRef) (shiftFor : Block → Nat) :
    ∀ (l : List (Nat × Block)) (db : List Assignment) (fresh : Nat)
      (db' : List Assignment) (f' : Nat),
      noDoubleBooking db → insert_ops rd iso shiftFor db fresh l = some (db', f') →
      noDoubleBooking db' := by
  intro l
  induction l with
  | nil =>
    intro db fresh db' f' h hi
    unfold insert_ops at hi
    obtain ⟨h1, -⟩ := Prod.mk.injEq .. ▸ Option.some.inj hi
    exact h1 ▸ h
  | cons p rest ih =>
    intro db fresh db' f' h hi
    obtain ⟨sid, b⟩ := p
    unfold insert_ops at hi
    cases hca : createAssignment db (op_row rd iso shiftFor fresh sid b) with
    | none => rw [hca] at hi; exact absurd hi (by simp)
    | some dbx =>
      rw [hca] at hi
      exact ih dbx (fresh + 1) db' f' (createAssignment_pres h hca) hi

lemma insert_sups_pres (rd : Nat) (iso : IsolatorRef) (shiftFor : Block → Nat)
    (b : Block) :
    ∀ (l : List Nat) (db : List Assignment) (fresh : Nat)
      (db' : List Assignment) (f' : Nat),
      noDoubleBooking db → insert_sups rd iso shiftFor b db fresh l = some (db', f') →
      noDoubleBooking db' := by
  intro l
  induction l with
  | nil =>
    intro db fresh db' f' h hi
    unfold insert_sups at hi
    obtain ⟨h1, -⟩ := Prod.mk.injEq .. ▸ Option.some.inj hi
    exact h1 ▸ h
  | cons sid rest ih =>
    intro db fresh db' f' h hi
    unfold insert_sups at hi
    cases hca : createAssignment db (sup_row rd iso shiftFor fresh sid b) with
    | none => rw [hca] at hi; exact absurd hi (by simp)
    | some dbx =>
      rw [hca] at hi
      exact ih dbx (fresh + 1) db' f' (createAssignment_pres h hca) hi

lemma daily_rota_save_pres {db db' : List Assignment} {rd : Nat} {iso : IsolatorRef}
    {opsD : List (Nat × Block)} {supAM4 supPM4 : List Nat}
    {shiftFor : Block → Nat} {freshId : Nat}
    (h : noDoubleBooking db)
    (hs : daily_rota_save db rd iso opsD supAM4 supPM4 shiftFor freshId
            = Except.ok db') :
    noDoubleBooking db' := by
  unfold daily_rota_save at hs
  cases hio : insert_ops rd iso shiftFor (wipe_isolator_ops db rd iso) freshId opsD with
  | none => simp only [hio] at hs; exact Except.noConfusion hs
  | some x =>
    obtain ⟨db2, fresh2⟩ := x
    simp only [hio] at hs
    have h2 : noDoubleBooking db2 :=
      insert_ops_pres rd iso shiftFor opsD _ freshId db2 fresh2
        (noDoubleBooking_filter db _ h) hio
    cases hsa : insert_sups rd iso shiftFor Block.AM (wipe_room_sups db2 rd iso)
        fresh2 supAM4 with
    | none => simp only [hsa] at hs; exact Except.noConfusion hs
    | some y =>
      obtain ⟨db3, fresh3⟩ := y
      simp only [hsa] at hs
      have h3 : noDoubleBooking db3 :=
        insert_sups_pres rd iso shiftFor Block.AM supAM4 _ fresh2 db3 fresh3
          (noDoubleBooking_filter db2 _ h2) hsa
      cases hsp : insert_sups rd iso shiftFor Block.PM db3 fresh3 supPM4 with
      | none => simp only [hsp] at hs; exact Except.noConfusion hs
      | some z =>
        obtain ⟨db4, fresh4⟩ := z
        simp only [hsp] at hs
        have h4 : noDoubleBooking db4 :=
          insert_sups_pres rd iso shiftFor Block.PM supPM4 _ fresh3 db4 fresh4 h3 hsp
        have hdb : db4 = db' := Except.ok.inj hs
        exact hdb ▸ h4

/-- C2: under the unique constraint, a direct row INSERT preserves the
at-most-one-assignment-per-(rotaday, staff, shift_block) invariant, and so
does the entire daily-rota save flow. -/
theorem C2_no_double_booking_invariant :
    (∀ (db : List Assignment) (a : Assignment) (db' : List Assignment),
       noDoubleBooking db → createAssignment db a = some db' → noDoubleBooking db') ∧
    (∀ (db : List Assignment) (rd : Nat) (iso : IsolatorRef)
       (ops : List (Nat × Block)) (supAM supPM : List Nat)
       (shiftFor : Block → Nat) (freshId : Nat) (db' : List Assignment),
       noDoubleBooking db →
       daily_rota_post db rd iso ops supAM supPM shiftFor freshId
         = PostResult.saved db' →
       noDoubleBooking db') := by
  constructor
  · intro db a db' h hc
    exact createAssignment_pres h hc
  · intro db rd iso ops supAM supPM shiftFor freshId db' h hp
    unfold daily_rota_post at hp
    split at hp
    · exact absurd hp (by simp)
    · cases hsv : daily_rota_save db rd iso (dedupe_ops ops) (supAM.take 4)
          (supPM.take 4) shiftFor freshId with
      | error e => rw [hsv] at hp; exact absurd hp (by simp)
      | ok dbx =>
        rw [hsv] at hp
        have : dbx = db' := by
          cases hp; rfl
        exact this ▸ daily_rota_save_pres h hsv

/-- C2 witness: starting from an empty table, a successful daily-rota save of
one operator and one PM supervisor yields a table that still satisfies the
invariant. -/
theorem C2_no_double_booking_witness :
    noDoubleBooking
      [op_row 0 ⟨1, 1⟩ (fun _ => 0) 100 7 Block.AM,
       sup_row 0 ⟨1, 1⟩ (fun _ => 0) 101 8 Block.PM] :=
  C2_no_double_booking_invariant.2 [] 0 ⟨1, 1⟩ [(7, Block.AM)] [] [8]
    (fun _ => 0) 100 _ List.Pairwise.nil (by decide)

/-- C3 counterexample: on an EMPTY assignment table — so no selected pair has
any existing assignment, in or out of the edit context — choosing staff 7 both
as an operator (AM) and as a room supervisor (AM) is still rejected: the two
freshly inserted rows collide on (rotaday, staff, shift_block) and the save
aborts with the IntegrityError the handler catches.  So "rejected exactly when
some selected pair already has an out-of-context assignment" is false. -/
theorem C3_cex_rejected_without_existing_conflict :
    daily_rota_post [] 0 ⟨1, 1⟩ [(7, Block.AM)] [7] [] (fun _ => 0) 100
      = PostResult.saveFailed [] SaveErr.integrityErr ∧
    conflicts_in [] 0 ⟨1, 1⟩
      (selected_pairs (dedupe_ops [(7, Block.AM)]) ([7].take 4)
        (([] : List Nat).take 4)) = [] := by
  decide

/-- C3 (amended): the conflict-check path rejects exactly when some selected
(staff, block) pair has an out-of-context assignment on the day; the save can
additionally fail on a unique-key collision among the rows it writes; on every
rejection path the stored assignments are left unchanged. -/
theorem C3_conflict_rejection_and_atomicity (db : List Assignment) (rd : Nat)
    (iso : IsolatorRef) (ops : List (Nat × Block)) (supAM supPM : List Nat)
    (shiftFor : Block → Nat) (freshId : Nat) :
    ((∃ cs, daily_rota_post db rd iso ops supAM supPM shiftFor freshId
        = PostResult.conflictRejected db cs) ↔
      conflicts_in db rd iso
        (selected_pairs (dedupe_ops ops) (supAM.take 4) (supPM.take 4)) ≠ []) ∧
    (∀ (db' cs : List Assignment),
       daily_rota_post db rd iso ops supAM supPM shiftFor freshId
         = PostResult.conflictRejected db' cs → db' = db) ∧
    (∀ (db' : List Assignment) (e : SaveErr),
       daily_rota_post db rd iso ops supAM supPM shiftFor freshId
         = PostResult.saveFailed db' e → db' = db) := by
  unfold daily_rota_post
  by_cases hc : (conflicts_in db rd iso
      (selected_pairs (dedupe_ops ops) (supAM.take 4) (supPM.take 4))).isEmpty = false
  · rw [if_pos hc]
    refine ⟨⟨fun _ hnil => ?_, fun _ => ⟨_, rfl⟩⟩, fun db' cs heq => ?_, fun db' e heq => ?_⟩
    · rw [hnil] at hc
      simp [List.isEmpty] at hc
    · injection heq with h1 h2
      exact h1.symm
    · exact PostResult.noConfusion heq
  · rw [if_neg hc]
    have hemp : (conflicts_in db rd iso
        (selected_pairs (dedupe_ops ops) (supAM.take 4) (supPM.take 4))).isEmpty = true := by
      cases hE : (conflicts_in db rd iso
          (selected_pairs (dedupe_ops ops) (supAM.take 4) (supPM.take 4))).isEmpty
      · exact absurd hE hc
      · rfl
    have hnil : conflicts_in db rd iso
        (selected_pairs (dedupe_ops ops) (supAM.take 4) (supPM.take 4)) = [] := by
      cases hl : conflicts_in db rd iso
          (selected_pairs (dedupe_ops ops) (supAM.take 4) (supPM.take 4))
      · rfl
      · rw [hl] at hemp
        simp [List.isEmpty] at hemp
    cases hsv : daily_rota_save db rd iso (dedupe_ops ops) (supAM.take 4)
        (supPM.take 4) shiftFor freshId with
    | error e =>
      simp only [hsv]
      refine ⟨⟨fun hex => ?_, fun hne => absurd hnil hne⟩,
        fun db' cs heq => PostResult.noConfusion heq, fun db' e' heq => ?_⟩
      · obtain ⟨cs, h⟩ := hex
        exact PostResult.noConfusion h
      · injection heq with h1 h2
        exact h1.symm
    | ok dbx =>
      simp only [hsv]
      refine ⟨⟨fun hex => ?_, fun hne => absurd hnil hne⟩,
        fun db' cs heq => PostResult.noConfusion heq,
        fun db' e' heq => PostResult.noConfusion heq⟩
      obtain ⟨cs, h⟩ := hex
      exact PostResult.noConfusion h

/-- A day's existing assignment used by the C3 witness: staff 7 already holds
an AM slot on isolator 9 in room 2, outside the edit context of isolator 1. -/
def outOfContextRow : Assignment :=
  { id := 1, rotaday := 0, staffId := 7, cleanRoomId := 2, isolatorId := some 9,
    shiftId := none, locationType := LocType.ISOLATOR, shiftBlock := Block.AM,
    isRoomSupervisor := false }

/-- C3 witness: selecting staff 7 (AM) on isolator 1 while staff 7 already
holds an out-of-context AM assignment makes the handler take the
conflict-rejection path, leaving the table unchanged. -/
theorem C3_conflict_rejection_witness :
    ∃ cs, daily_rota_post [outOfContextRow] 0 ⟨1, 1⟩ [(7, Block.AM)] [] []
        (fun _ => 0) 100
      = PostResult.conflictRejected [outOfContextRow] cs :=
  (C3_conflict_rejection_and_atomicity [outOfContextRow] 0 ⟨1, 1⟩ [(7, Block.AM)]
    [] [] (fun _ => 0) 100).1.mpr (by decide)

/-- Error dictionary as Django views it: keyed messages, a later assignment to
the same key replacing the earlier entry. -/
def setError (es : List (String × String)) (k v : String) :
    List (String × String) :=
  if es.any (fun p => p.1 == k) then
    es.map (fun p => if p.1 == k then (k, v) else p)
  else es ++ [(k, v)]

/-- Embeds the function `clean` of rota/models.py.  NOTE: in the source this
function is written at module level — its `def` is dedented out of the
`Assignment` class body — so it is a stand-alone function that `full_clean`
never calls; it is embedded here as exactly that.  `staff` is the row
`self.staff` refers to and `db` the assignment table read by the capacity
count.  The guard `if not getattr(self, "shift_block", None)` fires only on a
falsy (unset / empty-string) shift block, which the `Block` enum cannot
represent, and the `else` arm for an invalid `location_type` is likewise
unreachable for the `LocType` enum.  Returns the `errors` dict and the value
written into `self.is_room_supervisor`. -/
def clean (db : List Assignment) (a : Assignment) (staff : StaffMember) :
    List (String × String) × Bool :=
  match a.locationType with
  | LocType.ROOM =>
    let es : List (String × String) :=
      if a.isolatorId ≠ none then
        setError [] "isolator" "Room assignments must not have an isolator."
      else []
    let es :=
      if staff.role ≠ Role.SUPERVISOR then
        setError es "staff" "Only supervisors can be assigned to the clean room."
      else es
    (es, true)
  | LocType.ISOLATOR =>
    let es : List (String × String) :=
      if a.isolatorId = none then
        setError [] "isolator" "Isolator assignments must select an isolator."
      else []
    let existing :=
      (db.filter (fun b =>
        b.rotaday == a.rotaday && b.isolatorId == a.isolatorId
        && b.locationType == LocType.ISOLATOR && b.id != a.id)).length
    let es :=
      if existing ≥ 6 then
        setError es "isolator" "This isolator already has 6 assigned operators."
      else es
    (es, false)

/-- Embeds what `full_clean()` actually runs for `Assignment`: field and
choice validation (vacuous for the enum embedding) plus the uniqueness check
for `uniq_staff_per_rotaday_shiftblock`.  Because the `clean` function above
sits at module level instead of on the class, `full_clean` falls back to
`django.db.models.Model.clean`, a no-op, and runs none of the ROOM/ISOLATOR
rules. -/
def Assignment.full_clean (db : List Assignment) (a : Assignment) :
    List (String × String) :=
  if db.any (fun b => b.id != a.id && b.key == a.key) then
    [("__all__", "Assignment with this Rotaday, Staff and Shift block already exists.")]
  else []

/-- A ROOM assignment violating both claimed rules: held by an OPERATIVE.
(The claimed isolator rule is exercised separately below.) -/
def roomRowByOperative : Assignment :=
  { id := 50, rotaday := 0, staffId := 7, cleanRoomId := 1, isolatorId := none,
    shiftId := none, locationType := LocType.ROOM, shiftBlock := Block.AM,
    isRoomSupervisor := true }

/-- A ROOM assignment that carries an isolator, violating the other claimed
ROOM rule. -/
def roomRowWithIsolator : Assignment :=
  { id := 51, rotaday := 0, staffId := 8, cleanRoomId := 1, isolatorId := some 3,
    shiftId := none, locationType := LocType.ROOM, shiftBlock := Block.AM,
    isRoomSupervisor := true }

/-- C5: `full_clean` accepts a ROOM assignment held by an OPERATIVE and one
carrying an isolator — the dedented `clean` function would reject both, but it
is never invoked — and the daily-rota flow happily saves a ROOM row for staff
whose role is OPERATIVE (it never consults the role). -/
theorem C5_room_rules_not_enforced :
    Assignment.full_clean [] roomRowByOperative = [] ∧
    (clean [] roomRowByOperative ⟨7, Role.OPERATIVE, true⟩).1 ≠ [] ∧
    Assignment.full_clean [] roomRowWithIsolator = [] ∧
    (clean [] roomRowWithIsolator ⟨8, Role.SUPERVISOR, true⟩).1 ≠ [] ∧
    daily_rota_post [] 0 ⟨1, 1⟩ [] [7] [] (fun _ => 0) 100
      = PostResult.saved [sup_row 0 ⟨1, 1⟩ (fun _ => 0) 100 7 Block.AM] ∧
    (sup_row 0 ⟨1, 1⟩ (fun _ => 0) 100 7 Block.AM).locationType = LocType.ROOM ∧
    (⟨7, Role.OPERATIVE, true⟩ : StaffMember).role ≠ Role.SUPERVISOR := by
  decide

/-- The six operator rows already stored for isolator 1 on day 0 (staff 1–6,
all AM), used to exercise the capacity rule. -/
def sixOpRows : List Assignment :=
  (List.range 6).map (fun i =>
    { id := i + 1, rotaday := 0, staffId := i + 1, cleanRoomId := 1,
      isolatorId := some 1, shiftId := none, locationType := LocType.ISOLATOR,
      shiftBlock := Block.AM, isRoomSupervisor := false })

/-- A seventh operator row for the same isolator and day. -/
def seventhOpRow : Assignment :=
  { id := 7, rotaday := 0, staffId := 7, cleanRoomId := 1, isolatorId := some 1,
    shiftId := none, locationType := LocType.ISOLATOR, shiftBlock := Block.AM,
    isRoomSupervisor := false }

/-- An ISOLATOR assignment with no isolator selected. -/
def isolatorRowMissingIsolator : Assignment :=
  { id := 60, rotaday := 0, staffId := 9, cleanRoomId := 1, isolatorId := none,
    shiftId := none, locationType := LocType.ISOLATOR, shiftBlock := Block.AM,
    isRoomSupervisor := false }

/-- C6: with six operators already on isolator 1 for the day, `full_clean`
still accepts a seventh (and an ISOLATOR row with no isolator) — the dedented
`clean` function would reject both, but it is never invoked — and the
constrained INSERT then stores the seventh row, leaving seven operators on the
isolator. -/
theorem C6_capacity_not_enforced :
    Assignment.full_clean sixOpRows seventhOpRow = [] ∧
    (clean sixOpRows seventhOpRow ⟨7, Role.OPERATIVE, true⟩).1
      = [("isolator", "This isolator already has 6 assigned operators.")] ∧
    Assignment.full_clean [] isolatorRowMissingIsolator = [] ∧
    (clean [] isolatorRowMissingIsolator ⟨9, Role.OPERATIVE, true⟩).1
      = [("isolator", "Isolator assignments must select an isolator.")] ∧
    createAssignment sixOpRows seventhOpRow = some (sixOpRows ++ [seventhOpRow]) ∧
    (sixOpRows ++ [seventhOpRow]).countP (fun b =>
      b.rotaday == 0 && b.isolatorId == some 1
      && b.locationType == LocType.ISOLATOR) = 7 := by
  decide

/-- Audit event type, from `RotaDayAuditEvent.EVENT_CHOICES` (rota/models.py). -/
inductive EventType where
  | ASSIGNMENT_CREATED
  | ASSIGNMENT_UPDATED
  | ASSIGNMENT_DELETED
  | PUBLISHED
  | REPUBLISHED
deriving DecidableEq, Repr

/-- Embeds rota/models.py `RotaDayAuditEvent` (the fields the claims touch).
`after_json` holds the publish payload (`publish_version`, `published_at`);
the assignment snapshots are never produced — see `assignment_snapshot`. -/
structure RotaDayAuditEvent where
  rotaday : Nat
  event_type : EventType
  actor : Option Nat
  summary : String
  after_json : Option (Nat × Option Nat) := none
deriving DecidableEq, Repr

/-- The snapshot dictionary `_assignment_snapshot` is written to build. -/
structure AssignmentSnapshot where
  staff_id : Option Nat
  staff_name : Option String
  room_id : Option Nat
  room_name : Option String
  isolator_id : Option Nat
  isolator_name : Option String
  shift_id : Option Nat
  shift_name : Option String
deriving DecidableEq, Repr

/-- Embeds `_assignment_snapshot` of rota/signals.py.  Its first field access,
`a.staff_member_id`, is not an attribute of `Assignment` — the model's fields
are named `staff`, `clean_room`, `shift` and `rotaday`, not `staff_member`,
`cleanroom`, `shift_template` and `rota_day` — so in Python the function
raises `AttributeError` before building any snapshot. -/
def assignment_snapshot (_a : Assignment) : Except String AssignmentSnapshot :=
  Except.error "AttributeError: Assignment object has no attribute staff_member_id"

/-- Embeds the `assignment_post_save` receiver of rota/signals.py.  Its first
statement, `rota_day = instance.rota_day`, accesses an attribute `Assignment`
does not have (the field is `rotaday`), so the receiver raises
`AttributeError` on every save — created or updated — and never reaches
`RotaDayAuditEvent.objects.create`. -/
def assignment_post_save (_audit : List RotaDayAuditEvent) (_a : Assignment)
    (_created : Bool) : Except String (List RotaDayAuditEvent) :=
  Except.error "AttributeError: Assignment object has no attribute rota_day"

/-- Embeds the `assignment_post_delete` receiver of rota/signals.py, which
fails on the same `instance.rota_day` access. -/
def assignment_post_delete (_audit : List RotaDayAuditEvent) (_a : Assignment) :
    Except String (List RotaDayAuditEvent) :=
  Except.error "AttributeError: Assignment object has no attribute rota_day"

/-- Embeds the `publish_rota_day` view (rota/views.py): inside one transaction
it calls `mark_published`, saves, and appends one PUBLISHED (first publish) or
REPUBLISHED (republish) audit event carrying the new version and timestamp. -/
def publish_rota_day (r : RotaDay) (audit : List RotaDayAuditEvent)
    (user : Nat) (now : Nat) (reason : String) :
    RotaDay × List RotaDayAuditEvent :=
  let already : Bool := decide (r.status = RStatus.PUBLISHED)
  let r' := r.mark_published user now
  (r', audit ++
    [{ rotaday := r.date,
       event_type := if already then EventType.REPUBLISHED else EventType.PUBLISHED,
       actor := some user,
       summary :=
         if already then
           (if reason ≠ "" then "Republished rota: " ++ reason else "Republished rota")
         else "Published rota",
       after_json := some (r'.publish_version, r'.published_at) }])

/-- C7 at its failing inputs: the assignment audit receivers raise
`AttributeError` for every save and delete, appending nothing (the snapshot
builder itself can never return), while the publish view does append exactly
one PUBLISHED event on a first publish and one REPUBLISHED event on a
republish. -/
theorem C7_assignment_audit_receivers_broken :
    (∃ msg, assignment_post_save [] outOfContextRow true = Except.error msg) ∧
    (∃ msg, assignment_post_save [] outOfContextRow false = Except.error msg) ∧
    (∃ msg, assignment_post_delete [] outOfContextRow = Except.error msg) ∧
    (∃ msg, assignment_snapshot outOfContextRow = Except.error msg) ∧
    (publish_rota_day (RotaDay.mk 0 RStatus.DRAFT none none 0) [] 1 5 "").2
      = [{ rotaday := 0, event_type := EventType.PUBLISHED, actor := some 1,
           summary := "Published rota", after_json := some (1, some 5) }] ∧
    (publish_rota_day (RotaDay.mk 0 RStatus.PUBLISHED (some 5) (some 1) 1) [] 2 9 "").2
      = [{ rotaday := 0, event_type := EventType.REPUBLISHED, actor := some 2,
           summary := "Republished rota", after_json := some (2, some 9) }] := by
  exact ⟨⟨_, rfl⟩, ⟨_, rfl⟩, ⟨_, rfl⟩, ⟨_, rfl⟩, by decide, by decide⟩

/-- Embeds rota/models.py `Isolator` — the rota app's isolator model, a
different model from validation/models.py `Isolator`. -/
structure RotaIsolator where
  id : Nat
  cleanRoomId : Nat
deriving DecidableEq, Repr

/-- Embeds the `create_default_sections` receiver of validation/signals.py.
The receiver is registered with `sender = rota.models.Isolator` (that is the
`Isolator` the module imports), while `IsolatorSection.isolator` is a foreign
key to validation.models.Isolator; handing `get_or_create` an instance of the
wrong model makes Django raise `ValueError` before any row is written. -/
def create_default_sections (secdb : List IsolatorSection)
    (_inst : RotaIsolator) (created : Bool) :
    Except String (List IsolatorSection) :=
  if created then
    Except.error "ValueError: IsolatorSection.isolator must be a validation Isolator instance"
  else
    Except.ok secdb

/-- Creation of a validation-app Isolator, as far as the section table is
concerned: no `post_save` receiver in the repository is registered for
validation.models.Isolator (the only receiver, `create_default_sections`,
listens on rota.models.Isolator), so the section table is left unchanged. -/
def on_validation_isolator_created (secdb : List IsolatorSection)
    (_isoId : Nat) : List IsolatorSection :=
  secdb

/-- C10 at its failing input: creating a fresh validation-app Isolator (pk 5)
creates no Left and no Right section for it, and the handler that was meant to
do so raises `ValueError` whenever its actual sender — a rota-app Isolator —
is created. -/
theorem C10_default_sections_not_created :
    ((on_validation_isolator_created [] 5).filter (fun s => s.isolatorId == 5)) = [] ∧
    (∃ msg, create_default_sections [] ⟨5, 1⟩ true = Except.error msg) := by
  exact ⟨rfl, ⟨_, rfl⟩⟩

end Skedaddle
